import Mathlib

/-!
Verification of the credential-resolution logic of `chaosk8s/__init__.py`
(chaostoolkit-kubernetes 0.11.0), shallowly embedded in Lean.

Modelling conventions:
* Python dictionaries (`os.environ`, the `secrets` bundle) are association
  lists `List (String × String)`; `dict.get k, d` is `dictGet`/`lookupVal`,
  `k in dict` is `dictContains`.
* Python values flowing through `lookup` are either strings, `None`, or the
  literal `False` default; `PyVal` has one constructor for each.
* The filesystem existence check (`os.path.exists`) and `os.path.expanduser`
  are parameters `fs : String → Bool` and `expand : String → String` of the
  model: the code only observes their value at one path.
* `kubernetes.client.Configuration()` is external; `Configuration` models the
  fields the code assigns, plus `ssl_ca_cert` (the library's CA-bundle field,
  default `None`, which the code never assigns). Unassigned optional fields
  default to `PyVal.vnone` ("not populated"); the library defaults
  `verify_ssl = True` and `debug = False` are kept.
* `config.new_client_from_config()` and `client.ApiClient(configuration)` are
  opaque collaborators: the result type `ApiClientResult` records which one
  was called and with which configuration.
-/

/-- A Python value as it can appear in the resolver: a string taken from the
environment or the secrets bundle, the `None` default, or the `False`
default used for `KUBERNETES_VERIFY_SSL`. -/
inductive PyVal where
  | vstr (s : String)
  | vnone
  | vfalse
  deriving DecidableEq, BEq, Repr

/-- `d.get k` on a Python dict, returning `None` when absent. -/
def dictGet (m : List (String × String)) (k : String) : Option String :=
  m.lookup k

/-- `k in d` on a Python dict. -/
def dictContains (m : List (String × String)) (k : String) : Bool :=
  (dictGet m k).isSome

/-- The nested lookup closure of `create_k8s_api_client`:
`lookup(k, d) = secrets.get(k, env.get(k, d))`. A present value is always a
string; the default `d` is returned only when the key is absent from both. -/
def lookupVal (secrets env : List (String × String)) (k : String)
    (d : PyVal) : PyVal :=
  match dictGet secrets k with
  | some v => PyVal.vstr v
  | none =>
    match dictGet env k with
    | some v => PyVal.vstr v
    | none => d

/-- `has_local_config_file()`: the kubeconfig path is
`expanduser(environ.get('KUBECONFIG', '~/.kube/config'))` and the check is
file existence at that path. Only `KUBECONFIG` is consulted. -/
def has_local_config_file (expand : String → String) (fs : String → Bool)
    (env : List (String × String)) : Bool :=
  fs (expand ((dictGet env "KUBECONFIG").getD "~/.kube/config"))

/-- The fields of `kubernetes.client.Configuration` that the resolver touches,
plus the library's CA-bundle field `ssl_ca_cert` (never assigned by the
code). `api_key` and `api_key_prefix_auth` model the `'authorization'`
entries of the library's `api_key` / `api_key_prefix` dicts (the source
field name is `api_key_prefix`). -/
structure Configuration where
  debug : Bool := Bool.false
  host : PyVal := PyVal.vnone
  verify_ssl : Bool := Bool.true
  ssl_ca_cert : PyVal := PyVal.vnone
  cert_file : PyVal := PyVal.vnone
  key_file : PyVal := PyVal.vnone
  api_key : PyVal := PyVal.vnone
  api_key_prefix_auth : PyVal := PyVal.vnone
  username : PyVal := PyVal.vnone
  password : PyVal := PyVal.vnone
  deriving DecidableEq, BEq, Repr

/-- The observable result of `create_k8s_api_client`: either the client built
by `config.new_client_from_config()` (standard config-file loader), or
`client.ApiClient(configuration)` with the configuration the code built. -/
inductive ApiClientResult where
  | fromLocalConfig
  | fromConfiguration (c : Configuration)
  deriving DecidableEq, BEq, Repr

/-- The configuration-building else-branch of `create_k8s_api_client`,
line by line: `debug`, `host`, `verify_ssl`, the
`configuration.cert_file = lookup("KUBERNETES_CA_CERT_FILE")` assignment,
then the `if/elif` authentication chain triggered by key presence in
`env` or `secrets`. -/
def buildConfiguration (env secrets : List (String × String)) :
    Configuration :=
  let base : Configuration :=
    { debug := Bool.true
      host := lookupVal secrets env "KUBERNETES_HOST"
        (PyVal.vstr "http://localhost")
      verify_ssl :=
        decide (lookupVal secrets env "KUBERNETES_VERIFY_SSL" PyVal.vfalse
          ≠ PyVal.vfalse)
      cert_file := lookupVal secrets env "KUBERNETES_CA_CERT_FILE"
        PyVal.vnone }
  if dictContains env "KUBERNETES_API_KEY"
      || dictContains secrets "KUBERNETES_API_KEY" then
    { base with
      api_key := lookupVal secrets env "KUBERNETES_API_KEY" PyVal.vnone
      api_key_prefix_auth := lookupVal secrets env
        "KUBERNETES_API_KEY_PREFIX" (PyVal.vstr "Bearer") }
  else if dictContains env "KUBERNETES_CERT_FILE"
      || dictContains secrets "KUBERNETES_CERT_FILE" then
    { base with
      cert_file := lookupVal secrets env "KUBERNETES_CERT_FILE" PyVal.vnone
      key_file := lookupVal secrets env "KUBERNETES_KEY_FILE" PyVal.vnone }
  else if dictContains env "KUBERNETES_USERNAME"
      || dictContains secrets "KUBERNETES_USERNAME" then
    { base with
      username := lookupVal secrets env "KUBERNETES_USERNAME" PyVal.vnone
      password := lookupVal secrets env "KUBERNETES_PASSWORD"
        (PyVal.vstr "") }
  else base

/-- `create_k8s_api_client(secrets)`: `secrets = secrets or {}`; if a local
config file exists, return `config.new_client_from_config()` at once;
otherwise build the configuration and return `client.ApiClient` on it. -/
def create_k8s_api_client (expand : String → String) (fs : String → Bool)
    (env : List (String × String))
    (secrets0 : Option (List (String × String))) : ApiClientResult :=
  let secrets := secrets0.getD []
  if has_local_config_file expand fs env then
    ApiClientResult.fromLocalConfig
  else
    ApiClientResult.fromConfiguration (buildConfiguration env secrets)

/-- The configuration a result was built from, when it was not the local
config-file path. -/
def builtConfig : ApiClientResult → Option Configuration
  | ApiClientResult.fromLocalConfig => Option.none
  | ApiClientResult.fromConfiguration c => some c

/-- The credential keys the resolver looks up. -/
def resolverKeys : List String :=
  ["KUBERNETES_HOST", "KUBERNETES_VERIFY_SSL", "KUBERNETES_CA_CERT_FILE",
   "KUBERNETES_API_KEY", "KUBERNETES_API_KEY_PREFIX",
   "KUBERNETES_CERT_FILE", "KUBERNETES_KEY_FILE",
   "KUBERNETES_USERNAME", "KUBERNETES_PASSWORD"]

/-- Concrete filesystem in which every path exists. -/
def fsAll : String → Bool := fun _ => Bool.true

/-- Concrete filesystem in which no path exists. -/
def fsNone : String → Bool := fun _ => Bool.false

/-- Identity `expanduser`, for concrete inputs that use no `~`. -/
def expandId : String → String := fun s => s

/-- Claim C1: whenever a kubeconfig file exists at the resolved path
(`KUBECONFIG` or the `~/.kube/config` default), `create_k8s_api_client`
returns the client from the standard config-file loader; the result is the
constant `fromLocalConfig`, the same for every secrets bundle, so neither
the Credential Bundle nor any credential environment variable influences
it (the statement quantifies over all `env` and all `secrets0`). -/
theorem create_local_config_wins (expand : String → String)
    (fs : String → Bool) (env : List (String × String))
    (secrets0 : Option (List (String × String)))
    (hloc : has_local_config_file expand fs env = Bool.true) :
    create_k8s_api_client expand fs env secrets0
        = ApiClientResult.fromLocalConfig
      ∧ ∀ secrets1, create_k8s_api_client expand fs env secrets1
        = create_k8s_api_client expand fs env secrets0 := by
  constructor
  · simp [create_k8s_api_client, hloc]
  · intro secrets1
    simp [create_k8s_api_client, hloc]

/-- Witness for C1: a filesystem where the config file exists, an environment
and a bundle full of contradictory credentials; the loader client is
returned regardless. -/
theorem create_local_config_wins_witness :
    has_local_config_file expandId fsAll
        [("KUBERNETES_HOST", "https://env:1")] = Bool.true
      ∧ create_k8s_api_client expandId fsAll
        [("KUBERNETES_HOST", "https://env:1")]
        (some [("KUBERNETES_API_KEY", "k"), ("KUBERNETES_HOST", "other")])
        = ApiClientResult.fromLocalConfig :=
  ⟨rfl, (create_local_config_wins expandId fsAll
    [("KUBERNETES_HOST", "https://env:1")]
    (some [("KUBERNETES_API_KEY", "k"), ("KUBERNETES_HOST", "other")])
    rfl).1⟩

/-- Claim C2: for every key the resolver uses, a value present in the
Credential Bundle wins over the Environment (even when both are present
with different values); when absent from the bundle the Environment's
value is returned, and when absent from both the default is returned. -/
theorem lookup_precedence (k : String) (_hk : k ∈ resolverKeys)
    (secrets env : List (String × String)) (d : PyVal) :
    (∀ v, dictGet secrets k = some v
        → lookupVal secrets env k d = PyVal.vstr v)
      ∧ (dictGet secrets k = Option.none
        → ∀ v, dictGet env k = some v
        → lookupVal secrets env k d = PyVal.vstr v)
      ∧ (dictGet secrets k = Option.none → dictGet env k = Option.none
        → lookupVal secrets env k d = d) := by
  refine ⟨?_, ?_, ?_⟩
  · intro v hv
    simp [lookupVal, hv]
  · intro hs v hv
    simp [lookupVal, hs, hv]
  · intro hs he
    simp [lookupVal, hs, he]

/-- Witness for C2: `KUBERNETES_HOST` present in both the bundle (value
`"from-secrets"`) and the environment (different value `"from-env"`);
the bundle's value is returned. -/
theorem lookup_precedence_witness :
    lookupVal [("KUBERNETES_HOST", "from-secrets")]
        [("KUBERNETES_HOST", "from-env")] "KUBERNETES_HOST" PyVal.vnone
      = PyVal.vstr "from-secrets" :=
  (lookup_precedence "KUBERNETES_HOST" (by decide)
    [("KUBERNETES_HOST", "from-secrets")]
    [("KUBERNETES_HOST", "from-env")] PyVal.vnone).1 "from-secrets" rfl

/-- When a key is absent from both dictionaries, `lookup` returns the
default. -/
theorem lookupVal_absent (secrets env : List (String × String)) (k : String)
    (d : PyVal) (hs : dictContains secrets k = Bool.false)
    (he : dictContains env k = Bool.false) :
    lookupVal secrets env k d = d := by
  unfold dictContains at hs he
  unfold lookupVal
  cases h1 : dictGet secrets k with
  | some v => rw [h1] at hs; simp at hs
  | none =>
    cases h2 : dictGet env k with
    | some v => rw [h2] at he; simp at he
    | none => simp

/-- When a key is present in either dictionary, `lookup` returns a string
(never the default). -/
theorem lookupVal_present (secrets env : List (String × String)) (k : String)
    (d : PyVal)
    (h : (dictContains env k || dictContains secrets k) = Bool.true) :
    ∃ v, lookupVal secrets env k d = PyVal.vstr v := by
  unfold dictContains at h
  unfold lookupVal
  cases h1 : dictGet secrets k with
  | some v => exact ⟨v, rfl⟩
  | none =>
    cases h2 : dictGet env k with
    | some v => exact ⟨v, by simp⟩
    | none => rw [h1, h2] at h; simp at h

/-- The `is not False` test on the `KUBERNETES_VERIFY_SSL` lookup is exactly
key presence in either dictionary, since present values are strings. -/
theorem lookup_not_false_sentinel (secrets env : List (String × String))
    (k : String) :
    decide (lookupVal secrets env k PyVal.vfalse ≠ PyVal.vfalse)
      = (dictContains secrets k || dictContains env k) := by
  unfold lookupVal dictContains
  cases h1 : dictGet secrets k <;> cases h2 : dictGet env k <;> simp

/-- The `debug` flag of the built configuration, in every branch. -/
theorem buildConfiguration_debug (env secrets : List (String × String)) :
    (buildConfiguration env secrets).debug = Bool.true := by
  unfold buildConfiguration
  split
  · rfl
  · split
    · rfl
    · split <;> rfl

/-- The `verify_ssl` flag of the built configuration, in every branch. -/
theorem buildConfiguration_verify_ssl (env secrets : List (String × String)) :
    (buildConfiguration env secrets).verify_ssl
      = (dictContains secrets "KUBERNETES_VERIFY_SSL"
        || dictContains env "KUBERNETES_VERIFY_SSL") := by
  have h := lookup_not_false_sentinel secrets env "KUBERNETES_VERIFY_SSL"
  unfold buildConfiguration
  split
  · exact h
  · split
    · exact h
    · split <;> exact h

/-- Environment refuting the literal reading of claim C3: both
`KUBERNETES_API_KEY` and `KUBERNETES_CERT_FILE` present, together with
`KUBERNETES_CA_CERT_FILE`. -/
def envC3 : List (String × String) :=
  [("KUBERNETES_API_KEY", "a"), ("KUBERNETES_CERT_FILE", "c"),
   ("KUBERNETES_CA_CERT_FILE", "ca")]

/-- Counterexample to claim C3 as stated: with `KUBERNETES_API_KEY` and
`KUBERNETES_CERT_FILE` both present and no local config, API-key mode is
indeed selected, but the certificate field `cert_file` IS populated —
with the `KUBERNETES_CA_CERT_FILE` value `"ca"`, because the line
`configuration.cert_file = lookup("KUBERNETES_CA_CERT_FILE")` runs before
the authentication chain. So "the certificate fields (cert_file, key_file)
are not populated" fails at this input. -/
theorem api_key_mode_cert_file_cex :
    builtConfig (create_k8s_api_client expandId fsNone envC3 Option.none)
      = some { debug := Bool.true, host := PyVal.vstr "http://localhost",
               verify_ssl := Bool.false, cert_file := PyVal.vstr "ca",
               api_key := PyVal.vstr "a",
               api_key_prefix_auth := PyVal.vstr "Bearer" } := by
  rfl

/-- Claim C3 amended: with no local config, whenever `KUBERNETES_API_KEY` is
present in the Environment or the Credential Bundle (in particular when
`KUBERNETES_CERT_FILE` is also present), the API-key branch wins: `api_key`
and `api_key_prefix` are populated from their lookups, `key_file`,
`username` and `password` are not populated, and `cert_file` carries only
the `KUBERNETES_CA_CERT_FILE` lookup — never the `KUBERNETES_CERT_FILE`
value. The trigger is key presence, not the resolved value. -/
theorem api_key_mode_wins (expand : String → String) (fs : String → Bool)
    (env : List (String × String))
    (secrets0 : Option (List (String × String)))
    (hloc : has_local_config_file expand fs env = Bool.false)
    (hkey : (dictContains env "KUBERNETES_API_KEY"
      || dictContains (secrets0.getD []) "KUBERNETES_API_KEY")
      = Bool.true) :
    create_k8s_api_client expand fs env secrets0
      = ApiClientResult.fromConfiguration
        { debug := Bool.true
          host := lookupVal (secrets0.getD []) env "KUBERNETES_HOST"
            (PyVal.vstr "http://localhost")
          verify_ssl := decide (lookupVal (secrets0.getD []) env
            "KUBERNETES_VERIFY_SSL" PyVal.vfalse ≠ PyVal.vfalse)
          cert_file := lookupVal (secrets0.getD []) env
            "KUBERNETES_CA_CERT_FILE" PyVal.vnone
          api_key := lookupVal (secrets0.getD []) env
            "KUBERNETES_API_KEY" PyVal.vnone
          api_key_prefix_auth := lookupVal (secrets0.getD []) env
            "KUBERNETES_API_KEY_PREFIX" (PyVal.vstr "Bearer") }
      ∧ lookupVal (secrets0.getD []) env "KUBERNETES_API_KEY" PyVal.vnone
        ≠ PyVal.vnone := by
  constructor
  · simp [create_k8s_api_client, hloc, buildConfiguration, hkey]
  · obtain ⟨v, hv⟩ := lookupVal_present (secrets0.getD []) env
      "KUBERNETES_API_KEY" PyVal.vnone hkey
    rw [hv]
    simp

/-- Witness for the amended C3: concrete environment with both
`KUBERNETES_API_KEY` and `KUBERNETES_CERT_FILE`; the API-key branch wins
and `key_file` stays unpopulated. -/
theorem api_key_mode_wins_witness :
    has_local_config_file expandId fsNone envC3 = Bool.false
      ∧ create_k8s_api_client expandId fsNone envC3 Option.none
        = ApiClientResult.fromConfiguration
          { debug := Bool.true, host := PyVal.vstr "http://localhost",
            verify_ssl := Bool.false, cert_file := PyVal.vstr "ca",
            api_key := PyVal.vstr "a",
            api_key_prefix_auth := PyVal.vstr "Bearer" } :=
  ⟨rfl, by
    have h := (api_key_mode_wins expandId fsNone envC3 Option.none rfl
      (by decide)).1
    simpa using h⟩

/-- Claim C4: in a no-local-config run, `verify_ssl` of the resulting
configuration is false exactly when `KUBERNETES_VERIFY_SSL` is absent from
both the Credential Bundle and the Environment; any present value is a
string, hence not the `False` sentinel, and yields true. -/
theorem verify_ssl_presence (expand : String → String) (fs : String → Bool)
    (env : List (String × String))
    (secrets0 : Option (List (String × String)))
    (hloc : has_local_config_file expand fs env = Bool.false) :
    Option.map Configuration.verify_ssl
        (builtConfig (create_k8s_api_client expand fs env secrets0))
      = some (dictContains (secrets0.getD []) "KUBERNETES_VERIFY_SSL"
        || dictContains env "KUBERNETES_VERIFY_SSL") := by
  simp [create_k8s_api_client, hloc, builtConfig,
    buildConfiguration_verify_ssl]

/-- Witness for C4: `KUBERNETES_VERIFY_SSL` present in the environment with
the string value `"no"` (not the false sentinel), so verification is on. -/
theorem verify_ssl_presence_witness :
    Option.map Configuration.verify_ssl
        (builtConfig (create_k8s_api_client expandId fsNone
          [("KUBERNETES_VERIFY_SSL", "no")] Option.none))
      = some Bool.true := by
  have h := verify_ssl_presence expandId fsNone
    [("KUBERNETES_VERIFY_SSL", "no")] Option.none rfl
  simpa using h

/-- Environment exhibiting the CA-certificate slip: only
`KUBERNETES_CA_CERT_FILE` is set. -/
def envC5 : List (String × String) :=
  [("KUBERNETES_CA_CERT_FILE", "/ca.pem")]

/-- Same, but a client certificate is also configured. -/
def envC5b : List (String × String) :=
  [("KUBERNETES_CA_CERT_FILE", "/ca.pem"),
   ("KUBERNETES_CERT_FILE", "/client.pem"),
   ("KUBERNETES_KEY_FILE", "/client.key")]

/-- Claim C5, evaluated at the failing inputs: the code assigns the
`KUBERNETES_CA_CERT_FILE` lookup to `cert_file` — the client-certificate
authentication field — and never to the library's CA field `ssl_ca_cert`
(which stays unpopulated in both runs). Worse, when `KUBERNETES_CERT_FILE`
is also present, the certificate branch overwrites `cert_file` and the CA
path is lost entirely. The spec's `ca_cert_file = lookup(...)` with a CA
field distinct from the client-certificate fields does not hold. -/
theorem ca_cert_misassigned :
    builtConfig (create_k8s_api_client expandId fsNone envC5 Option.none)
        = some { debug := Bool.true, host := PyVal.vstr "http://localhost",
                 verify_ssl := Bool.false, ssl_ca_cert := PyVal.vnone,
                 cert_file := PyVal.vstr "/ca.pem" }
      ∧ builtConfig (create_k8s_api_client expandId fsNone envC5b
          Option.none)
        = some { debug := Bool.true, host := PyVal.vstr "http://localhost",
                 verify_ssl := Bool.false, ssl_ca_cert := PyVal.vnone,
                 cert_file := PyVal.vstr "/client.pem",
                 key_file := PyVal.vstr "/client.key" } :=
  ⟨rfl, rfl⟩

/-- API-key authentication fields populated. -/
def apiKeyAuth (c : Configuration) : Bool :=
  decide (c.api_key ≠ PyVal.vnone)
    || decide (c.api_key_prefix_auth ≠ PyVal.vnone)

/-- Client-certificate authentication fields populated. -/
def certAuth (c : Configuration) : Bool :=
  decide (c.cert_file ≠ PyVal.vnone) || decide (c.key_file ≠ PyVal.vnone)

/-- Username/password authentication fields populated. -/
def basicAuth (c : Configuration) : Bool :=
  decide (c.username ≠ PyVal.vnone) || decide (c.password ≠ PyVal.vnone)

/-- How many of the three authentication modes are populated. -/
def authModeCount (c : Configuration) : Nat :=
  (if apiKeyAuth c then 1 else 0) + (if certAuth c then 1 else 0)
    + (if basicAuth c then 1 else 0)

/-- None of the six recognized credential keys is present in either
dictionary. -/
def credKeysAbsent (secrets env : List (String × String)) : Bool :=
  ["KUBERNETES_API_KEY", "KUBERNETES_API_KEY_PREFIX",
   "KUBERNETES_CERT_FILE", "KUBERNETES_KEY_FILE",
   "KUBERNETES_USERNAME", "KUBERNETES_PASSWORD"].all
    (fun k => !(dictContains secrets k) && !(dictContains env k))

/-- Environment refuting claim C6 as stated: an API key together with a CA
certificate path. -/
def envC6 : List (String × String) :=
  [("KUBERNETES_API_KEY", "a"), ("KUBERNETES_CA_CERT_FILE", "ca")]

/-- Counterexample to claim C6 as stated: with `KUBERNETES_API_KEY` and
`KUBERNETES_CA_CERT_FILE` both set and no local config, the resulting
configuration has TWO authentication modes populated — the API-key fields
and `cert_file` (which received the CA path), breaking "at most one
authentication mode is populated". -/
theorem auth_mode_two_modes_cex :
    Option.map authModeCount
        (builtConfig (create_k8s_api_client expandId fsNone envC6
          Option.none))
      = some 2 := by
  rfl

/-- Claim C6 amended: restricted to inputs where `KUBERNETES_CA_CERT_FILE`
is absent from both the Credential Bundle and the Environment (otherwise
its value leaks into `cert_file`), every no-local-config run populates at
most one authentication mode, and populates none when none of the six
recognized credential keys is present. -/
theorem auth_mode_at_most_one (expand : String → String)
    (fs : String → Bool) (env : List (String × String))
    (secrets0 : Option (List (String × String)))
    (hloc : has_local_config_file expand fs env = Bool.false)
    (hca1 : dictContains (secrets0.getD []) "KUBERNETES_CA_CERT_FILE"
      = Bool.false)
    (hca2 : dictContains env "KUBERNETES_CA_CERT_FILE" = Bool.false) :
    ∀ c, builtConfig (create_k8s_api_client expand fs env secrets0) = some c
      → authModeCount c ≤ 1
        ∧ (credKeysAbsent (secrets0.getD []) env = Bool.true
          → authModeCount c = 0) := by
  intro c hc
  simp [create_k8s_api_client, hloc, builtConfig] at hc
  have hca : lookupVal (secrets0.getD []) env "KUBERNETES_CA_CERT_FILE"
      PyVal.vnone = PyVal.vnone :=
    lookupVal_absent _ _ _ _ hca1 hca2
  subst hc
  unfold buildConfiguration
  constructor
  · split
    · simp [authModeCount, certAuth, basicAuth, hca]
      split <;> simp
    · split
      · rename_i hcert
        simp [authModeCount, apiKeyAuth, basicAuth]
        split <;> simp
      · split
        · simp [authModeCount, apiKeyAuth, certAuth, hca]
          split <;> simp
        · simp [authModeCount, apiKeyAuth, certAuth, basicAuth, hca]
  · intro habs
    simp [credKeysAbsent, dictContains] at habs
    obtain ⟨hak, _hpf, hcf, _hkf, hus, _hpw⟩ := habs
    have a1 : dictContains (secrets0.getD []) "KUBERNETES_API_KEY"
        = Bool.false := by
      unfold dictContains; rw [hak.1]; rfl
    have a2 : dictContains env "KUBERNETES_API_KEY" = Bool.false := by
      unfold dictContains; rw [hak.2]; rfl
    have c1 : dictContains (secrets0.getD []) "KUBERNETES_CERT_FILE"
        = Bool.false := by
      unfold dictContains; rw [hcf.1]; rfl
    have c2 : dictContains env "KUBERNETES_CERT_FILE" = Bool.false := by
      unfold dictContains; rw [hcf.2]; rfl
    have u1 : dictContains (secrets0.getD []) "KUBERNETES_USERNAME"
        = Bool.false := by
      unfold dictContains; rw [hus.1]; rfl
    have u2 : dictContains env "KUBERNETES_USERNAME" = Bool.false := by
      unfold dictContains; rw [hus.2]; rfl
    simp [a1, a2, c1, c2, u1, u2, authModeCount, apiKeyAuth, certAuth,
      basicAuth, hca]

/-- Witness for the amended C6: username-only credentials, no CA key; exactly
one mode (username/password) is populated, and with everything absent
none is. -/
theorem auth_mode_at_most_one_witness :
    authModeCount (buildConfiguration [("KUBERNETES_USERNAME", "u")] []) ≤ 1
      ∧ authModeCount (buildConfiguration [] []) = 0 :=
  ⟨((auth_mode_at_most_one expandId fsNone [("KUBERNETES_USERNAME", "u")]
      Option.none rfl rfl rfl) (buildConfiguration
        [("KUBERNETES_USERNAME", "u")] []) rfl).1,
   ((auth_mode_at_most_one expandId fsNone [] Option.none rfl rfl rfl)
      (buildConfiguration [] []) rfl).2 rfl⟩

/-- The environment of the claim C7 scenario. -/
def envC7 : List (String × String) :=
  [("KUBERNETES_HOST", "https://10.0.0.1:6443"),
   ("KUBERNETES_API_KEY", "abc")]

/-- Claim C7: with `KUBERNETES_HOST = https://10.0.0.1:6443` and
`KUBERNETES_API_KEY = abc` in the environment, no bundle and no local
config, the configuration has that host, `verify_ssl = false`, API-key
auth `abc` with prefix `Bearer`; and with an empty environment the host
defaults to `http://localhost`. -/
theorem scenario_api_key_and_default_host :
    builtConfig (create_k8s_api_client expandId fsNone envC7 Option.none)
        = some { debug := Bool.true,
                 host := PyVal.vstr "https://10.0.0.1:6443",
                 verify_ssl := Bool.false, api_key := PyVal.vstr "abc",
                 api_key_prefix_auth := PyVal.vstr "Bearer" }
      ∧ builtConfig (create_k8s_api_client expandId fsNone [] Option.none)
        = some { debug := Bool.true, host := PyVal.vstr "http://localhost",
                 verify_ssl := Bool.false } :=
  ⟨rfl, rfl⟩

/-- Claim C10: in every no-local-config run the built configuration has
`debug = True`, unconditionally, for all bundles and environments
(`configuration.debug = True` is the first assignment). -/
theorem debug_flag_always_true (expand : String → String)
    (fs : String → Bool) (env : List (String × String))
    (secrets0 : Option (List (String × String)))
    (hloc : has_local_config_file expand fs env = Bool.false) :
    Option.map Configuration.debug
        (builtConfig (create_k8s_api_client expand fs env secrets0))
      = some Bool.true := by
  simp [create_k8s_api_client, hloc, builtConfig, buildConfiguration_debug]

/-- Witness for C10: empty environment and bundle, no local config. -/
theorem debug_flag_always_true_witness :
    Option.map Configuration.debug
        (builtConfig (create_k8s_api_client expandId fsNone [] Option.none))
      = some Bool.true :=
  debug_flag_always_true expandId fsNone [] Option.none rfl

/-!
Discovery. `initialize_discovery_result`, `discover_actions` and
`discover_probes` belong to the host framework `chaoslib` (an external
collaborator): the record it initialises is modelled from its use in
`discover` and the spec's output format
`{name, version, type, activities, system}`, and the activities lists are
abstract parameters. The Kubernetes cluster behind
`explore_kubernetes_system` is abstracted as the list of namespace names
returned by `list_namespace` plus, for each namespace, the decoded pod and
deployment listings (opaque values of type `π` and `δ`).
-/

/-- `__version__` of the module. -/
def versionStr : String := "0.11.0"

/-- A `logzero` log entry level. -/
inductive LogLevel where
  | info
  | warn
  deriving DecidableEq, Repr

/-- The mutable `info = {}` dict of `explore_kubernetes_system`: its
`"pods"` and `"deployments"` entries, absent until first assigned. -/
structure SystemInfo (π δ : Type) where
  pods : Option π
  deployments : Option δ
  deriving DecidableEq, Repr

/-- The cluster as seen through the API client: namespace names from
`list_namespace`, and per-namespace pod and deployment listings. -/
structure Cluster (π δ : Type) where
  namespaces : List String
  pods : String → π
  deployments : String → δ

/-- `explore_kubernetes_system()`: log, bail out with `None` (and a warning)
when no local config file exists; otherwise iterate over the namespaces,
overwriting `info["pods"]` and `info["deployments"]` on each iteration.
Returns the log entries produced and the Python return value
(`none` models Python `None`). -/
def explore_kubernetes_system {π δ : Type} (expand : String → String)
    (fs : String → Bool) (env : List (String × String))
    (cluster : Cluster π δ) :
    List (LogLevel × String) × Option (SystemInfo π δ) :=
  if has_local_config_file expand fs env = Bool.false then
    ([(LogLevel.info, "Discovering Kubernetes system"),
      (LogLevel.warn, "Could not locate the default kubeconfig file")],
     Option.none)
  else
    ([(LogLevel.info, "Discovering Kubernetes system")],
     some (cluster.namespaces.foldl
       (fun _ ns => { pods := some (cluster.pods ns)
                      deployments := some (cluster.deployments ns) })
       { pods := Option.none, deployments := Option.none }))

/-- The discovery record `{name, version, type, activities, system}`. The
`system` key is only present when `discover_system` was requested; its
value can itself be Python `None` (hence `Option (Option _)`). `dtype`
models the source's `"type"` entry (`type` is reserved in Lean). -/
structure DiscoveryRec (α π δ : Type) where
  name : String
  version : String
  dtype : String
  activities : List α
  system : Option (Option (SystemInfo π δ))
  deriving DecidableEq, Repr

/-- Modelled from the spec: `chaoslib`'s `initialize_discovery_result`
(external collaborator, not in this repository) initialises the record
`{name, version, type, activities: [], system: absent}` that `discover`
then extends. -/
def init_discovery_result {α π δ : Type} (name ver typ : String) :
    DiscoveryRec α π δ :=
  { name := name, version := ver, dtype := typ, activities := [],
    system := Option.none }

/-- `discover(discover_system)`: log, initialise the record, extend
`activities` with the exported activities (`acts` abstracts the external
`discover_actions`/`discover_probes` results), and set the `system` key
from `explore_kubernetes_system()` when requested. -/
def discover {α π δ : Type} (expand : String → String) (fs : String → Bool)
    (env : List (String × String)) (acts : List α) (cluster : Cluster π δ)
    (discover_system : Bool) :
    List (LogLevel × String) × DiscoveryRec α π δ :=
  let logs0 := [(LogLevel.info,
    "Discovering capabilities from chaostoolkit-kubernetes")]
  let d0 : DiscoveryRec α π δ :=
    init_discovery_result "chaostoolkit-kubernetes" versionStr "kubernetes"
  let d1 := { d0 with activities := d0.activities ++ acts }
  if discover_system then
    let r := explore_kubernetes_system expand fs env cluster
    (logs0 ++ r.1, { d1 with system := some r.2 })
  else
    (logs0, d1)

/-- Claim C8: calling `discover` with `discover_system = True` and no local
config file never raises: the exploration step logs a warning and returns
no system information (the `system` key is set to Python `None`), while
the record's name, version, type and activities are produced normally. -/
theorem discover_no_config_warns {α π δ : Type} (expand : String → String)
    (fs : String → Bool) (env : List (String × String)) (acts : List α)
    (cluster : Cluster π δ)
    (hloc : has_local_config_file expand fs env = Bool.false) :
    discover expand fs env acts cluster Bool.true
      = ([(LogLevel.info,
            "Discovering capabilities from chaostoolkit-kubernetes"),
          (LogLevel.info, "Discovering Kubernetes system"),
          (LogLevel.warn, "Could not locate the default kubeconfig file")],
         { name := "chaostoolkit-kubernetes", version := versionStr,
           dtype := "kubernetes", activities := acts,
           system := some Option.none }) := by
  simp [discover, explore_kubernetes_system, hloc, init_discovery_result]

/-- A concrete two-namespace cluster for witnesses. -/
def clusterW : Cluster String String :=
  { namespaces := ["alpha", "beta"]
    pods := fun ns => String.append ns "-pods"
    deployments := fun ns => String.append ns "-deployments" }

/-- Witness for C8: empty environment, filesystem without the kubeconfig
file, one exported activity. -/
theorem discover_no_config_warns_witness :
    discover expandId fsNone [] ["k8s-activity"] clusterW Bool.true
      = ([(LogLevel.info,
            "Discovering capabilities from chaostoolkit-kubernetes"),
          (LogLevel.info, "Discovering Kubernetes system"),
          (LogLevel.warn, "Could not locate the default kubeconfig file")],
         { name := "chaostoolkit-kubernetes", version := versionStr,
           dtype := "kubernetes", activities := ["k8s-activity"],
           system := some Option.none }) :=
  discover_no_config_warns expandId fsNone [] ["k8s-activity"] clusterW rfl

/-- A fold whose step ignores the accumulator returns the image of the last
element. -/
theorem foldl_overwrite {α β : Type} (g : α → β) :
    ∀ (l : List α) (a : α) (init : β), l.getLast? = some a
      → l.foldl (fun _ y => g y) init = g a := by
  intro l
  induction l with
  | nil =>
    intro a init h
    simp at h
  | cons x t ih =>
    intro a init h
    cases t with
    | nil =>
      simp at h
      simp [List.foldl, h]
    | cons y s =>
      rw [List.foldl_cons]
      exact ih a (g x) (by rw [List.getLast?_cons_cons] at h; exact h)

/-- Claim C9: when a local config exists and the cluster returns a non-empty
namespace list, `explore_kubernetes_system` returns the shared `info` dict
whose `pods` and `deployments` entries are those of the LAST namespace:
each iteration overwrites both entries, so earlier namespaces' data does
not survive. -/
theorem explore_last_namespace_wins {π δ : Type} (expand : String → String)
    (fs : String → Bool) (env : List (String × String))
    (cluster : Cluster π δ) (ns : String)
    (hloc : has_local_config_file expand fs env = Bool.true)
    (hlast : cluster.namespaces.getLast? = some ns) :
    (explore_kubernetes_system expand fs env cluster).2
      = some { pods := some (cluster.pods ns)
               deployments := some (cluster.deployments ns) } := by
  unfold explore_kubernetes_system
  rw [hloc]
  simp only [Bool.true_eq_false, if_false]
  rw [foldl_overwrite
    (fun y => ({ pods := some (cluster.pods y)
                 deployments := some (cluster.deployments y) } :
      SystemInfo π δ)) cluster.namespaces ns _ hlast]

/-- Witness for C9: the two-namespace cluster; only the data of the last
namespace `beta` survives. -/
theorem explore_last_namespace_wins_witness :
    (explore_kubernetes_system expandId fsAll [] clusterW).2
      = some { pods := some "beta-pods",
               deployments := some "beta-deployments" } :=
  explore_last_namespace_wins expandId fsAll [] clusterW "beta" rfl rfl
